import Mathlib

/-!
Shallow embedding of the pancake-robot sensor-fusion core
(src/code/asincroAccel.py, externalAccel.py, internalAccel.py,
motorContol.py).  Python floats are modelled by exact rationals,
Python exceptions (OSError) by Except, dictionaries by structures,
and uasyncio coroutines by an explicit coroutine tree.
-/

namespace Pancake

/-- Python OSError values, modelled by their errno code. -/
abbrev OSErr := Nat

/-- Units tag attached by the internal adapter read; the code uses the
strings "g-force" and "raw". -/
inductive SensorUnits where
  | GForce : SensorUnits
  | RawCounts : SensorUnits
  deriving DecidableEq

/-- Dictionary returned by getInternalAccelerometerData in
asincroAccel.py (keys accel_x, accel_y, accel_z, units). -/
structure IntData where
  accel_x : ℚ
  accel_y : ℚ
  accel_z : ℚ
  units : SensorUnits
  deriving DecidableEq

/-- Dictionary returned by externalAcelerometers (keys accel_x..z,
gyro_x..z, temp_c); it carries no units tag. -/
structure ExtData where
  accel_x : ℚ
  accel_y : ℚ
  accel_z : ℚ
  gyro_x : ℚ
  gyro_y : ℚ
  gyro_z : ℚ
  temp_c : ℚ
  deriving DecidableEq

/-- Dictionary returned by get_averaged_accel_data_async
(keys norm_x, norm_y, norm_z). -/
structure FusedVector where
  norm_x : ℚ
  norm_y : ℚ
  norm_z : ℚ
  deriving DecidableEq

/-- Model of the pyb.Accel device handle: each blocking read method
either raises OSError or returns an axis triple. -/
structure PybAccel where
  filtered_xyz : Except OSErr (ℚ × ℚ × ℚ)
  xyz : Except OSErr (ℚ × ℚ × ℚ)

/-- The seven signed 16-bit words that struct.unpack fetches from the
14-byte I2C burst read in MPU6050.get_all_data_scaled. -/
structure RawBurst where
  ax_r : Int
  ay_r : Int
  az_r : Int
  t_r : Int
  gx_r : Int
  gy_r : Int
  gz_r : Int
  deriving DecidableEq

/-- Model of an MPU6050 driver object: the pending I2C transaction
either raises OSError or fills the buffer with a raw burst. -/
structure MPU6050 where
  resp : Except OSErr RawBurst

/-- MPU6050.SCALE_ACCEL (16384.0 LSB per g). -/
def SCALE_ACCEL : ℚ := 16384

/-- MPU6050.SCALE_GYRO (131.0 LSB per dps). -/
def SCALE_GYRO : ℚ := 131

/-- MPU6050.get_all_data_scaled, from asincroAccel.py lines 26-45
(identical body in externalAccel.py lines 47-90): scales the burst on
success and, in the except OSError branch, returns the all-zero
seven-tuple instead of propagating the fault. -/
def get_all_data_scaled (resp : Except OSErr RawBurst) :
    ℚ × ℚ × ℚ × ℚ × ℚ × ℚ × ℚ :=
  match resp with
  | Except.ok r =>
      ((r.ax_r : ℚ) / SCALE_ACCEL,
       (r.ay_r : ℚ) / SCALE_ACCEL,
       (r.az_r : ℚ) / SCALE_ACCEL,
       (r.t_r : ℚ) / 340 + 3653 / 100,
       (r.gx_r : ℚ) / SCALE_GYRO,
       (r.gy_r : ℚ) / SCALE_GYRO,
       (r.gz_r : ℚ) / SCALE_GYRO)
  | Except.error _ => (0, 0, 0, 0, 0, 0, 0)

/-- externalAcelerometers from asincroAccel.py lines 52-64: absent
handle gives None, otherwise the scaled values are packed into a
dictionary.  It never raises, because get_all_data_scaled catches the
bus fault internally. -/
def externalAcelerometers (sensor_device : Option MPU6050) : Option ExtData :=
  match sensor_device with
  | none => none
  | some dev =>
      match get_all_data_scaled dev.resp with
      | (ax, ay, az, temp_c, gx, gy, gz) =>
          some ⟨ax, ay, az, gx, gy, gz, temp_c⟩

/-- getInternalAccelerometerData from asincroAccel.py lines 67-76:
absent handle gives None (not a raised error); otherwise the blocking
read is issued and its OSError, if any, propagates to the caller.  The
filtered read is tagged GForce ("g-force"), the raw read RawCounts
("raw"). -/
def getInternalAccelerometerData (accel_obj : Option PybAccel)
    (has_filtered_method : Bool) : Except OSErr (Option IntData) :=
  match accel_obj with
  | none => Except.ok none
  | some a =>
      if has_filtered_method then
        match a.filtered_xyz with
        | Except.error e => Except.error e
        | Except.ok (x, y, z) => Except.ok (some ⟨x, y, z, SensorUnits.GForce⟩)
      else
        match a.xyz with
        | Except.error e => Except.error e
        | Except.ok (x, y, z) => Except.ok (some ⟨x, y, z, SensorUnits.RawCounts⟩)

/-- Coroutine tree modelling a uasyncio task: it completes with a
value, fails with a raised OSError, or suspends (uasyncio.sleep_ms
with the given duration) and then continues.  Running a tree proceeds
outside-in: everything needed to produce the head constructor runs
synchronously in the current scheduling segment. -/
inductive Coro (α : Type) where
  | done : α → Coro α
  | failed : OSErr → Coro α
  | suspend : Nat → Coro α → Coro α
  deriving DecidableEq

/-- Sequencing of coroutines: a raised error propagates, a suspension
is preserved. -/
def Coro.bindC {α β : Type} : Coro α → (α → Coro β) → Coro β
  | Coro.done a, f => f a
  | Coro.failed e, _ => Coro.failed e
  | Coro.suspend n k, f => Coro.suspend n (k.bindC f)

/-- uasyncio.sleep_ms: suspend once for the given duration, carrying
no value. -/
def sleep_ms (n : Nat) : Coro Unit := Coro.suspend n (Coro.done ())

/-- Lifts the outcome of a synchronous call into a coroutine: a raised
OSError makes the task fail. -/
def liftResult {α : Type} : Except OSErr α → Coro α
  | Except.ok a => Coro.done a
  | Except.error e => Coro.failed e

/-- Number of suspension points a coroutine passes before completing
or failing. -/
def Coro.suspCount {α : Type} : Coro α → Nat
  | Coro.done _ => 0
  | Coro.failed _ => 0
  | Coro.suspend _ k => k.suspCount + 1

/-- Final outcome of driving a coroutine to completion. -/
def Coro.result {α : Type} : Coro α → Except OSErr α
  | Coro.done a => Except.ok a
  | Coro.failed e => Except.error e
  | Coro.suspend _ k => k.result

/-- get_internal_data_async from asincroAccel.py lines 83-87: run the
blocking read synchronously, then await uasyncio.sleep_ms(0), then
return the data. -/
def get_internal_data_async (accel_obj : Option PybAccel)
    (has_filtered_method : Bool) : Coro (Option IntData) :=
  (liftResult (getInternalAccelerometerData accel_obj has_filtered_method)).bindC
    fun data => (sleep_ms 0).bindC fun _ => Coro.done data

/-- get_external_data_async from asincroAccel.py lines 90-94: run the
blocking read synchronously, then await uasyncio.sleep_ms(0), then
return the data. -/
def get_external_data_async (sensor_device : Option MPU6050) :
    Coro (Option ExtData) :=
  (Coro.done (externalAcelerometers sensor_device)).bindC
    fun data => (sleep_ms 0).bindC fun _ => Coro.done data

/-- Outcome-level semantics of uasyncio.gather on two tasks: the first
task observed to fail makes gather raise its error; when both complete
their results are delivered together as a pair. -/
def gather2 {α β : Type} (a : Coro α) (b : Coro β) : Except OSErr (α × β) :=
  match a.result with
  | Except.error e => Except.error e
  | Except.ok va =>
      match b.result with
      | Except.error e => Except.error e
      | Except.ok vb => Except.ok (va, vb)

/-- NORMALIZATION_RANGE_G from asincroAccel.py line 99. -/
def NORMALIZATION_RANGE_G : ℚ := 2

/-- NORMALIZATION_RANGE_V1_RAW from asincroAccel.py line 100. -/
def NORMALIZATION_RANGE_V1_RAW : ℚ := 32

/-- Clamp step used on each averaged axis in asincroAccel.py lines
143-145: max(-1.0, min(1.0, v)). -/
def clampQ (v : ℚ) : ℚ := max (-1) (min 1 v)

/-- Fusion step of get_averaged_accel_data_async, asincroAccel.py
lines 123-147: if either dictionary is absent return None; otherwise
pick the internal divisor from the units tag (2.0 for "g-force", 32.0
otherwise), always divide the external axes by NORMALIZATION_RANGE_G,
average per axis, clamp, and pack the result. -/
def fuse (int_data : Option IntData) (ext_data : Option ExtData) :
    Option FusedVector :=
  match int_data, ext_data with
  | some idata, some edata =>
      let int_norm_factor :=
        match idata.units with
        | SensorUnits.GForce => NORMALIZATION_RANGE_G
        | SensorUnits.RawCounts => NORMALIZATION_RANGE_V1_RAW
      let int_norm_x := idata.accel_x / int_norm_factor
      let int_norm_y := idata.accel_y / int_norm_factor
      let int_norm_z := idata.accel_z / int_norm_factor
      let ext_norm_x := edata.accel_x / NORMALIZATION_RANGE_G
      let ext_norm_y := edata.accel_y / NORMALIZATION_RANGE_G
      let ext_norm_z := edata.accel_z / NORMALIZATION_RANGE_G
      let avg_x := clampQ ((int_norm_x + ext_norm_x) / 2)
      let avg_y := clampQ ((int_norm_y + ext_norm_y) / 2)
      let avg_z := clampQ ((int_norm_z + ext_norm_z) / 2)
      some ⟨avg_x, avg_y, avg_z⟩
  | _, _ => none

/-- get_averaged_accel_data_async from asincroAccel.py lines 103-147:
gather the two wrapped reads; a raised OSError is caught and turned
into None; otherwise the fusion step runs on the two results. -/
def get_averaged_accel_data_async (internal_obj : Option PybAccel)
    (internal_has_filter : Bool) (external_obj : Option MPU6050) :
    Option FusedVector :=
  match gather2 (get_internal_data_async internal_obj internal_has_filter)
        (get_external_data_async external_obj) with
  | Except.error _ => none
  | Except.ok (int_data, ext_data) => fuse int_data ext_data

/-- Divisor that the spec assigns to each internal units tag (claim
wording): 2.0 for GForce, 32.0 for RawCounts. -/
def specDivisor : SensorUnits → ℚ
  | SensorUnits.GForce => 2
  | SensorUnits.RawCounts => 32

/-- motorControl from motorContol.py lines 26-57: clamp the speed into
0..100 with the two leading if statements, then set the pair of PWM
duty-cycle percentages (channel 1, channel 2) according to the
direction argument.  Python integers are unbounded, hence Int. -/
def motorControl (speed direction : Int) : Int × Int :=
  let speed := if speed < 0 then 0 else speed
  let speed := if speed > 100 then 100 else speed
  if direction = 1 then (speed, 0)
  else if direction = -1 then (0, speed)
  else (0, 0)

/-- Clamp of an integer speed into the closed range 0..100, as the
claim words it. -/
def clampSpeed (s : Int) : Int := max 0 (min 100 s)

/-- State of the event-driven scheduler simulation for the fairness
property: now is the time at which the single thread becomes free,
blinkDue and fusionDue are each periodic task's next deadline, and
toggles counts LED toggles that happened before the horizon. -/
structure SimState where
  now : Nat
  blinkDue : Nat
  fusionDue : Nat
  toggles : Nat
  deriving DecidableEq

/-- Modelled from the spec: one step of the uasyncio cooperative
scheduler (an external library, spec sections 4.5 and 5) driving the
two periodic tasks of asincroAccel.py main.  The task with the earlier
deadline runs when the thread is free: blink_led (lines 153-157)
toggles instantly and sleeps 500 ms from its actual run time; the
fusion task (lines 198-213) occupies the thread for its fixed blocking
duration d and then sleeps 200 ms. -/
def simStep (horizon d : Nat) (s : SimState) : SimState :=
  if s.blinkDue ≤ s.fusionDue then
    let r := max s.now s.blinkDue
    { now := r, blinkDue := r + 500, fusionDue := s.fusionDue,
      toggles := s.toggles + (if r < horizon then 1 else 0) }
  else
    let r := max s.now s.fusionDue
    { now := r + d, blinkDue := s.blinkDue, fusionDue := r + d + 200,
      toggles := s.toggles }

/-- Iterates the scheduler simulation for a fixed number of steps. -/
def simRun (horizon d : Nat) : Nat → SimState → SimState
  | 0, s => s
  | n + 1, s => simRun horizon d n (simStep horizon d s)

/-- Number of blink_led toggles that occur before 10000 ms of
simulated time, with both periodic tasks ready at time 0 and a fusion
blocking duration of d ms.  120 steps drive both deadlines well past
the horizon for every d considered. -/
def toggleCount (d : Nat) : Nat :=
  (simRun 10000 d 120 ⟨0, 0, 0, 0⟩).toggles

/-- Hardware output state of the fusion program: whether LED 1 is
currently lit (blink_led toggles it). -/
structure LedState where
  led1_on : Bool
  deriving DecidableEq

/-- Shutdown path of asincroAccel.py lines 217-224: the
KeyboardInterrupt handler and the finally block only print; no write
to the LED or any other output is issued, so the hardware output state
is returned unchanged. -/
def asincro_shutdown (hw : LedState) : LedState := hw

/-- Closed form of the fusion step on two present samples. -/
theorem fuse_some_eq (i : IntData) (e : ExtData) :
    fuse (some i) (some e) = some
      ⟨clampQ ((i.accel_x / specDivisor i.units + e.accel_x / 2) / 2),
       clampQ ((i.accel_y / specDivisor i.units + e.accel_y / 2) / 2),
       clampQ ((i.accel_z / specDivisor i.units + e.accel_z / 2) / 2)⟩ := by
  cases i with
  | mk x y z u => cases u <;> rfl

/-- Clamped values lie in the closed interval from -1 to 1. -/
theorem clampQ_mem (v : ℚ) : -1 ≤ clampQ v ∧ clampQ v ≤ 1 :=
  ⟨le_max_left _ _, max_le (by norm_num) (min_le_left _ _)⟩

/-- Driving the internal wrapper task to completion produces exactly
the outcome of the synchronous read. -/
theorem internal_async_result (a : Option PybAccel) (hf : Bool) :
    (get_internal_data_async a hf).result =
      getInternalAccelerometerData a hf := by
  cases h : getInternalAccelerometerData a hf <;>
    simp [get_internal_data_async, h, liftResult, Coro.bindC, sleep_ms,
      Coro.result]

/-- Driving the external wrapper task to completion always succeeds
with the synchronous read's value. -/
theorem external_async_result (sd : Option MPU6050) :
    (get_external_data_async sd).result =
      Except.ok (externalAcelerometers sd) := rfl

/-- The clamped speed is nonnegative. -/
theorem clampSpeed_nonneg (s : Int) : 0 ≤ clampSpeed s := le_max_left _ _

/-- The clamped speed is at most 100. -/
theorem clampSpeed_le_100 (s : Int) : clampSpeed s ≤ 100 :=
  max_le (by norm_num) (min_le_left _ _)

/-- Closed form of motorControl: clamp first, then route the duty
cycle by direction. -/
theorem motorControl_eq (s d : Int) :
    motorControl s d =
      (if d = 1 then (clampSpeed s, 0)
       else if d = -1 then ((0 : Int), clampSpeed s)
       else (0, 0)) := by
  simp only [motorControl, clampSpeed, max_def, min_def]
  split_ifs <;> simp_all [Prod.mk.injEq] <;> omega

/-- C1: for every pair of present samples, whatever the axis values
and whichever units tag the internal sample carries, each component of
the fused vector lies in the closed interval from -1.0 to 1.0. -/
theorem fuse_output_clamped (i : IntData) (e : ExtData) (v : FusedVector)
    (h : fuse (some i) (some e) = some v) :
    (-1 ≤ v.norm_x ∧ v.norm_x ≤ 1) ∧ (-1 ≤ v.norm_y ∧ v.norm_y ≤ 1) ∧
    (-1 ≤ v.norm_z ∧ v.norm_z ≤ 1) := by
  rw [fuse_some_eq] at h
  obtain rfl := Option.some.inj h
  exact ⟨clampQ_mem _, clampQ_mem _, clampQ_mem _⟩

/-- Witness for C1 at input magnitudes far outside the nominal sensor
range: internal (1000000, -999999, 7) tagged RawCounts with external
(-123456, 5, 0) fuses to (-1, -1, 7/64). -/
theorem fuse_output_clamped_wit :
    ((-1 : ℚ) ≤ -1 ∧ (-1 : ℚ) ≤ 1) ∧ ((-1 : ℚ) ≤ -1 ∧ (-1 : ℚ) ≤ 1) ∧
    ((-1 : ℚ) ≤ 7 / 64 ∧ (7 / 64 : ℚ) ≤ 1) :=
  fuse_output_clamped ⟨1000000, -999999, 7, SensorUnits.RawCounts⟩
    ⟨-123456, 5, 0, 0, 0, 0, 0⟩ ⟨-1, -1, 7 / 64⟩
    (by rw [fuse_some_eq]; simp [clampQ, specDivisor, max_def, min_def]; norm_num)

/-- C2: the fused value per axis equals clamp of (i divided by the tag
divisor plus e divided by 2.0, all divided by 2.0), with divisor 2.0
for GForce and 32.0 for RawCounts, and the external axis always
divided by 2.0; internal (4,0,0) GForce with external (1,0,0) gives
fused X = 1.0, and internal (8,0,0) RawCounts with external (0,0,0)
gives fused X = 0.125. -/
theorem fuse_normalization (i : IntData) (e : ExtData) :
    fuse (some i) (some e) = some
      ⟨clampQ ((i.accel_x / specDivisor i.units + e.accel_x / 2) / 2),
       clampQ ((i.accel_y / specDivisor i.units + e.accel_y / 2) / 2),
       clampQ ((i.accel_z / specDivisor i.units + e.accel_z / 2) / 2)⟩ ∧
    fuse (some ⟨4, 0, 0, SensorUnits.GForce⟩) (some ⟨1, 0, 0, 0, 0, 0, 0⟩) =
      some ⟨1, 0, 0⟩ ∧
    fuse (some ⟨8, 0, 0, SensorUnits.RawCounts⟩) (some ⟨0, 0, 0, 0, 0, 0, 0⟩) =
      some ⟨1 / 8, 0, 0⟩ :=
  ⟨fuse_some_eq i e,
   by rw [fuse_some_eq]; simp [clampQ, specDivisor, max_def, min_def]; norm_num,
   by rw [fuse_some_eq]; simp [clampQ, specDivisor, max_def, min_def]; norm_num⟩

/-- C3: an absent sample at any stage yields no fused output and never
a crash: fuse of none with anything is none in both argument
positions, the internal adapter read with an absent handle returns an
ok None rather than raising, and the external adapter read with an
absent handle returns None. -/
theorem fuse_absent_gives_none :
    (∀ e : Option ExtData, fuse none e = none) ∧
    (∀ i : Option IntData, fuse i none = none) ∧
    (∀ hf : Bool, getInternalAccelerometerData none hf = Except.ok none) ∧
    externalAcelerometers none = none := by
  refine ⟨fun e => ?_, fun i => ?_, fun _ => rfl, rfl⟩
  · cases e <;> rfl
  · cases i <;> rfl

/-- C4 code-bug evidence: on a bus fault the driver returns the
all-zero seven-tuple instead of surfacing the fault, the adapter packs
it into a sample indistinguishable from a genuine zero-g reading, and
the fusion cycle still produces a fused vector (here internal (1,1,1)
GForce averaged with the substituted zeros gives (1/4, 1/4, 1/4))
instead of no fused vector that cycle. -/
theorem external_fault_zero_fallback :
    get_all_data_scaled (Except.error 5) = (0, 0, 0, 0, 0, 0, 0) ∧
    externalAcelerometers (some ⟨Except.error 5⟩) =
      some ⟨0, 0, 0, 0, 0, 0, 0⟩ ∧
    get_averaged_accel_data_async
      (some ⟨Except.ok (1, 1, 1), Except.ok (0, 0, 0)⟩) true
      (some ⟨Except.error 5⟩) = some ⟨1 / 4, 1 / 4, 1 / 4⟩ :=
  ⟨rfl, rfl, by
    simp [get_averaged_accel_data_async, gather2, get_internal_data_async,
      get_external_data_async, liftResult, Coro.bindC, sleep_ms, Coro.result,
      getInternalAccelerometerData, externalAcelerometers, get_all_data_scaled,
      fuse, clampQ, max_def, min_def, NORMALIZATION_RANGE_G, SCALE_ACCEL]
    norm_num⟩

/-- C5 counterexample: when the internal read task fails with OSError
errno 5 while the external source is healthy, the join path delivers
plain None, the very same value produced when the internal handle is
merely absent — no error value identifying which source failed ever
reaches the caller. -/
theorem join_failure_not_identified :
    get_averaged_accel_data_async
      (some ⟨Except.error 5, Except.ok (0, 0, 0)⟩) true
      (some ⟨Except.ok ⟨0, 0, 0, 0, 0, 0, 0⟩⟩) = none ∧
    get_averaged_accel_data_async none true
      (some ⟨Except.ok ⟨0, 0, 0, 0, 0, 0, 0⟩⟩) = none :=
  ⟨by
    simp [get_averaged_accel_data_async, gather2, get_internal_data_async,
      get_external_data_async, liftResult, Coro.bindC, sleep_ms, Coro.result,
      getInternalAccelerometerData],
   by
    simp [get_averaged_accel_data_async, gather2, get_internal_data_async,
      get_external_data_async, liftResult, Coro.bindC, sleep_ms, Coro.result,
      getInternalAccelerometerData, fuse]⟩

/-- C5 amended: if the internal read raises, the enclosing fusion
function catches it and returns None for the cycle, identifying
nothing; if the internal read succeeds, fusion receives the internal
result together with the external result. -/
theorem join_failure_yields_none (internal_obj : Option PybAccel)
    (hf : Bool) (external_obj : Option MPU6050) :
    get_averaged_accel_data_async internal_obj hf external_obj =
      match getInternalAccelerometerData internal_obj hf with
      | Except.error _ => none
      | Except.ok int_data =>
          fuse int_data (externalAcelerometers external_obj) := by
  unfold get_averaged_accel_data_async gather2
  rw [internal_async_result, external_async_result]
  cases getInternalAccelerometerData internal_obj hf <;> rfl

/-- C6: the fusion step is deterministic and stateless; it is a
function of its two sample arguments alone, so equal inputs always
give bit-identical outputs across repeated calls. -/
theorem fuse_deterministic (i1 i2 : Option IntData) (e1 e2 : Option ExtData)
    (hi : i1 = i2) (he : e1 = e2) : fuse i1 e1 = fuse i2 e2 := by
  rw [hi, he]

/-- Witness for C6 at a concrete pair of samples. -/
theorem fuse_deterministic_wit :
    fuse (some ⟨3, 2, 1, SensorUnits.RawCounts⟩) (some ⟨5, 6, 7, 0, 0, 0, 0⟩) =
    fuse (some ⟨3, 2, 1, SensorUnits.RawCounts⟩) (some ⟨5, 6, 7, 0, 0, 0, 0⟩) :=
  fuse_deterministic _ _ _ _ rfl rfl

/-- C7: each yielding wrapper runs its blocking read synchronously,
then suspends exactly once with a zero-duration payload-free sleep,
and then completes with exactly the value the wrapped read produced;
the coroutine tree is a single suspension followed by completion, so
no suspension precedes the blocking call. -/
theorem async_wrapper_yields_once (a : Option PybAccel) (hf : Bool)
    (v : Option IntData) (sd : Option MPU6050)
    (h : getInternalAccelerometerData a hf = Except.ok v) :
    get_internal_data_async a hf = Coro.suspend 0 (Coro.done v) ∧
    (get_internal_data_async a hf).suspCount = 1 ∧
    get_external_data_async sd =
      Coro.suspend 0 (Coro.done (externalAcelerometers sd)) ∧
    (get_external_data_async sd).suspCount = 1 := by
  have h1 : get_internal_data_async a hf = Coro.suspend 0 (Coro.done v) := by
    simp [get_internal_data_async, h, liftResult, Coro.bindC, sleep_ms]
  exact ⟨h1, by rw [h1]; rfl, rfl, rfl⟩

/-- Witness for C7 at a concrete internal device read. -/
theorem async_wrapper_yields_once_wit :
    get_internal_data_async (some ⟨Except.ok (1, 2, 3), Except.ok (4, 5, 6)⟩)
      true = Coro.suspend 0 (Coro.done (some ⟨1, 2, 3, SensorUnits.GForce⟩)) ∧
    (get_internal_data_async (some ⟨Except.ok (1, 2, 3), Except.ok (4, 5, 6)⟩)
      true).suspCount = 1 ∧
    get_external_data_async none =
      Coro.suspend 0 (Coro.done (externalAcelerometers none)) ∧
    (get_external_data_async none).suspCount = 1 :=
  async_wrapper_yields_once (some ⟨Except.ok (1, 2, 3), Except.ok (4, 5, 6)⟩)
    true (some ⟨1, 2, 3, SensorUnits.GForce⟩) none rfl

set_option maxRecDepth 400000 in
/-- C8: under the cooperative scheduler model, for every fixed fusion
blocking duration up to 80 ms, the 500 ms blink task toggles between
19 and 21 times over a simulated 10-second run, so the fusion task's
blocking work does not starve the background task. -/
theorem blink_fairness :
    ∀ d : Fin 81, 19 ≤ toggleCount d.val ∧ toggleCount d.val ≤ 21 := by
  decide

/-- C9 code-bug evidence: the fusion program's interrupt path returns
the LED state unchanged, so exiting while LED 1 is lit leaves it
actively driven, whereas the motor program's interrupt handler does
drive both PWM channels to zero. -/
theorem shutdown_leaves_led_driven :
    (asincro_shutdown ⟨true⟩).led1_on = true ∧ motorControl 0 0 = (0, 0) :=
  ⟨rfl, rfl⟩

/-- C10: motorControl clamps the speed into 0..100 and then drives
channel 1 at the clamped speed for direction 1, channel 2 at the
clamped speed for direction -1, and both channels to zero for any
other direction; both channels always end in 0..100 and at most one is
nonzero. -/
theorem motorControl_spec (speed direction : Int) :
    motorControl speed direction =
      (if direction = 1 then (clampSpeed speed, 0)
       else if direction = -1 then ((0 : Int), clampSpeed speed)
       else (0, 0)) ∧
    0 ≤ (motorControl speed direction).1 ∧
    (motorControl speed direction).1 ≤ 100 ∧
    0 ≤ (motorControl speed direction).2 ∧
    (motorControl speed direction).2 ≤ 100 ∧
    ((motorControl speed direction).1 = 0 ∨
      (motorControl speed direction).2 = 0) := by
  refine ⟨motorControl_eq speed direction, ?_, ?_, ?_, ?_, ?_⟩ <;>
    rw [motorControl_eq] <;> split_ifs <;>
      simp [clampSpeed_nonneg, clampSpeed_le_100]

end Pancake
